import Mathlib

/-!
Shallow embedding of `src/c/iothub_client/src/iothubtransportamqp_auth.c`
(the AMQP CBS authentication state machine of the IoT hub client transport).

Modelling conventions:
* `STRING_HANDLE` values are `String` (non-null) or `Option String` where the
  source keeps nullable handles.
* External collaborators (clock, allocator, string construction, the SAS token
  primitive, the CBS client) are failure-injected through an `Env` record; the
  arguments passed to `cbs_put_token` / `cbs_delete_token` and the observer
  invocations are collected as a list of `AuthEvent`s, in call order.
* `size_t` arithmetic is `Nat` reduced modulo `2 ^ 64` where the source can
  wrap (unsigned subtraction and multiplication).
* A C `int result` that a path leaves unassigned is modelled as `Option Int`
  with `none` standing for the indeterminate value; assigned results carry the
  source's `__LINE__` numbers (0 = `RESULT_OK`).
* Memory returned by `malloc` is arbitrary: `authentication_create` receives a
  `junk` record standing for the uninitialised allocation and overwrites
  exactly the fields the source writes.
* Dereferencing the state pointer while it is NULL (reachable in the source's
  create-cleanup) is modelled as `Except.error ()`.
-/

def SAS_TOKEN_TYPE : String := "servicebus.windows.net:sastoken"

/-- One more than the largest `size_t` value on the modelled target (`2 ^ 64`). -/
def SIZE_T_MOD : Nat := 2 ^ 64

/-- Unsigned `size_t` subtraction `a - b` with wraparound. -/
def size_t_sub (a b : Nat) : Nat :=
  (SIZE_T_MOD + a % SIZE_T_MOD - b % SIZE_T_MOD) % SIZE_T_MOD

/-- Unsigned `size_t` multiplication with wraparound. -/
def size_t_mul (a b : Nat) : Nat :=
  (a % SIZE_T_MOD) * (b % SIZE_T_MOD) % SIZE_T_MOD

inductive AUTHENTICATION_STATUS
  | NONE
  | IDLE
  | STARTED
  | AUTHENTICATING
  | AUTHENTICATED
  | REFRESHING
  | DEAUTHENTICATING
  | FAILED
  | FAILED_TIMEOUT
deriving DecidableEq

inductive CREDENTIAL_TYPE
  | NONE
  | DEVICE_KEY
  | DEVICE_SAS_TOKEN
  | X509
deriving DecidableEq

inductive DELETE_SAS_TOKEN_RESULT
  | SUCCESS
  | ERROR
deriving DecidableEq

/-- The tagged credential stored in `AUTHENTICATION_STATE.credential`
(the union members that the CBS paths read). -/
structure DEVICE_CREDENTIAL where
  type : CREDENTIAL_TYPE
  deviceKey : Option String
  deviceSasToken : Option String
deriving DecidableEq

/-- Embeds `AMQP_TRANSPORT_CBS_STATE` of the source. `cbs_handle` is reduced to the
only fact the module tests about it: whether it is NULL. -/
structure AMQP_TRANSPORT_CBS_STATE where
  sas_token_lifetime : Nat
  sas_token_refresh_time : Nat
  cbs_request_timeout : Nat
  cbs_handle_is_null : Bool
  sasTokenKeyName : Option String
  current_sas_token_create_time : Nat
  current_sas_token_put_time : Nat
deriving DecidableEq

/-- Embeds `AUTHENTICATION_STATE` of the source. The two observer slots are reduced
to whether a callback is registered (non-NULL); invocations are traced as
events. -/
structure AUTHENTICATION_STATE where
  device_id : String
  iot_hub_host_fqdn : String
  credential : DEVICE_CREDENTIAL
  cbs_state : AMQP_TRANSPORT_CBS_STATE
  status : AUTHENTICATION_STATUS
  on_status_changed_registered : Bool
  on_stop_completed_registered : Bool
deriving DecidableEq

/-- Observable calls out of the module: observer invocations and the
arguments handed to the CBS client. -/
inductive AuthEvent
  | statusChanged (old_status new_status : AUTHENTICATION_STATUS)
  | stopCompleted (result : DELETE_SAS_TOKEN_RESULT)
  | cbsPutToken (token_type audience token : String)
  | cbsDeleteToken (audience token_type : String)
deriving DecidableEq

/-- Failure injection for the external collaborators: `clock = none` models
`get_time` returning `INDEFINITE_TIME`; the `Bool`s model the success of
`malloc`, `sprintf_s`, `STRING_construct` (inside `create_devices_path`),
`SASToken_Create`, `cbs_put_token` and `cbs_delete_token`. -/
structure Env where
  clock : Option Nat
  malloc_ok : Bool
  sprintf_ok : Bool
  string_construct_ok : Bool
  sastoken_create_ok : Bool
  cbs_put_ok : Bool
  cbs_delete_ok : Bool
deriving DecidableEq

/-- Allocation outcomes for the calls `authentication_create` makes. -/
structure CreateEnv where
  malloc_ok : Bool
  construct_device_id_ok : Bool
  construct_fqdn_ok : Bool
  string_new_ok : Bool
  construct_credential_ok : Bool
deriving DecidableEq

/-- Embeds `getSecondsSinceEpoch` (lines 50-68): error `__LINE__ = 58` when the
clock cannot be read. -/
def getSecondsSinceEpoch (env : Env) : Except Int Nat :=
  match env.clock with
  | none => Except.error 58
  | some t => Except.ok t

/-- Embeds `update_status` (lines 70-82): the single choke point for status changes.
Returns the new state and the observer invocations it performed. -/
def update_status (auth_state : AUTHENTICATION_STATE)
    (new_status : AUTHENTICATION_STATUS) :
    AUTHENTICATION_STATE × List AuthEvent :=
  if auth_state.status ≠ new_status then
    ({ auth_state with status := new_status },
     if auth_state.on_status_changed_registered then
       [AuthEvent.statusChanged auth_state.status new_status]
     else [])
  else
    (auth_state, [])

/-- Embeds `create_devices_path` (lines 208-232). The source's format string is
`"%s/devices/%s"` applied to the first then the second parameter (whose
NAMES are `device_id` and `iot_hub_host_fqdn`); every caller passes the
host fqdn first and the device id second. -/
def create_devices_path (env : Env) (device_id iot_hub_host_fqdn : String) :
    Option String :=
  if env.malloc_ok then
    if env.sprintf_ok then
      if env.string_construct_ok then
        some (device_id ++ "/devices/" ++ iot_hub_host_fqdn)
      else none
    else none
  else none

/-- External SAS token primitive (out of scope of this module): yields an
opaque signed string from key, audience, key name and expiry, or fails. -/
def SASToken_Create (env : Env) (deviceKey devices_path sasTokenKeyName : String)
    (expiry : Nat) : Option String :=
  if env.sastoken_create_ok then
    some (deviceKey ++ "#" ++ devices_path ++ "#" ++ sasTokenKeyName ++ "#"
          ++ toString expiry)
  else none

/-- Embeds `handSASTokenToCbs` (lines 141-161): invokes `cbs_put_token` with token
type `SAS_TOKEN_TYPE` and audience `cbs_audience`; on success records
`current_sas_token_put_time`, on synchronous failure returns `__LINE__ = 150`. -/
def handSASTokenToCbs (env : Env) (auth_state : AUTHENTICATION_STATE)
    (cbs_audience sasToken : String) (current_time_in_sec_since_epoch : Nat) :
    Int × AUTHENTICATION_STATE × List AuthEvent :=
  if env.cbs_put_ok then
    (0,
     { auth_state with cbs_state :=
        { auth_state.cbs_state with
            current_sas_token_put_time := current_time_in_sec_since_epoch } },
     [AuthEvent.cbsPutToken SAS_TOKEN_TYPE cbs_audience sasToken])
  else
    (150, auth_state,
     [AuthEvent.cbsPutToken SAS_TOKEN_TYPE cbs_audience sasToken])

/-- Embeds `verifyAuthenticationTimeout` (lines 163-183): `size_t` arithmetic
`(now - current_sas_token_put_time) * 1000 >= cbs_request_timeout`. -/
def verifyAuthenticationTimeout (env : Env) (auth_state : AUTHENTICATION_STATE) :
    Except Int Bool :=
  match env.clock with
  | none => Except.error 172
  | some now =>
      Except.ok
        (size_t_mul (size_t_sub now auth_state.cbs_state.current_sas_token_put_time) 1000
          ≥ auth_state.cbs_state.cbs_request_timeout)

/-- Embeds `isSasTokenRefreshRequired` (lines 185-205): false for DEVICE_SAS_TOKEN,
fail-safe true on clock failure, else compares the token age to
`sas_token_refresh_time / 1000`. -/
def isSasTokenRefreshRequired (env : Env) (auth_state : AUTHENTICATION_STATE) :
    Bool :=
  if auth_state.credential.type = CREDENTIAL_TYPE.DEVICE_SAS_TOKEN then
    false
  else
    match env.clock with
    | none => true
    | some now =>
        size_t_sub now auth_state.cbs_state.current_sas_token_create_time
          ≥ auth_state.cbs_state.sas_token_refresh_time / 1000

/-- Embeds `authenticate_device` (lines 235-353). Returns (result, state, events). -/
def authenticate_device (env : Env) (auth_state : AUTHENTICATION_STATE) :
    Int × AUTHENTICATION_STATE × List AuthEvent :=
  match auth_state.credential.type with
  | CREDENTIAL_TYPE.DEVICE_KEY =>
    match getSecondsSinceEpoch env with
    | Except.error _ => (249, auth_state, [])
    | Except.ok currentTimeInSeconds =>
      let new_expiry_time :=
        currentTimeInSeconds + auth_state.cbs_state.sas_token_lifetime / 1000
      match create_devices_path env auth_state.iot_hub_host_fqdn auth_state.device_id with
      | none => (264, auth_state, [])
      | some devices_path =>
        match SASToken_Create env (auth_state.credential.deviceKey.getD "")
            devices_path (auth_state.cbs_state.sasTokenKeyName.getD "")
            new_expiry_time with
        | none => (271, auth_state, [])
        | some newSASToken =>
          let auth_state :=
            { auth_state with cbs_state :=
               { auth_state.cbs_state with
                   current_sas_token_create_time := currentTimeInSeconds } }
          let su := update_status auth_state AUTHENTICATION_STATUS.AUTHENTICATING
          let hs := handSASTokenToCbs env su.1 devices_path newSASToken
            currentTimeInSeconds
          if hs.1 ≠ 0 then
            let sf := update_status hs.2.1 AUTHENTICATION_STATUS.FAILED
            (284, sf.1, su.2 ++ hs.2.2 ++ sf.2)
          else
            (0, hs.2.1, su.2 ++ hs.2.2)
  | CREDENTIAL_TYPE.DEVICE_SAS_TOKEN =>
    match getSecondsSinceEpoch env with
    | Except.error _ => (311, auth_state, [])
    | Except.ok currentTimeInSeconds =>
      let su := update_status auth_state AUTHENTICATION_STATUS.AUTHENTICATING
      match create_devices_path env su.1.iot_hub_host_fqdn su.1.device_id with
      | none =>
        let sf := update_status su.1 AUTHENTICATION_STATUS.FAILED
        (325, sf.1, su.2 ++ sf.2)
      | some devices_path =>
        let hs := handSASTokenToCbs env su.1 devices_path
          (su.1.credential.deviceSasToken.getD "") currentTimeInSeconds
        if hs.1 ≠ 0 then
          let sf := update_status hs.2.1 AUTHENTICATION_STATUS.FAILED
          (332, sf.1, su.2 ++ hs.2.2 ++ sf.2)
        else
          (0, hs.2.1, su.2 ++ hs.2.2)
  | _ => (347, auth_state, [])

/-- The `AUTHENTICATION_CONFIG` fields `authentication_create` reads. -/
structure AUTHENTICATION_CONFIG where
  device_id : Option String
  iot_hub_host_fqdn : Option String
  device_key : Option String
  device_sas_token : Option String
deriving DecidableEq

/-- Embeds `authentication_create` (lines 358-480). `junk` is the uninitialised
memory `malloc` returned; fields the source never writes keep its values.
`Except.error ()` marks the paths on which the cleanup block (lines 464-476)
reads `auth_state->credential.data.deviceKey` (and three more fields) while
`auth_state` is still NULL. -/
def authentication_create (env : CreateEnv) (junk : AUTHENTICATION_STATE)
    (config : Option AUTHENTICATION_CONFIG) :
    Except Unit (Option AUTHENTICATION_STATE) :=
  match config with
  | none => Except.error ()
  | some cfg =>
    match cfg.device_id with
    | none => Except.error ()
    | some device_id =>
      match cfg.iot_hub_host_fqdn with
      | none => Except.error ()
      | some iot_hub_host_fqdn =>
        if ¬ env.malloc_ok then Except.error ()
        else
          -- state allocated; the source now writes the initial field values
          if ¬ env.construct_device_id_ok then Except.ok none
          else if ¬ env.construct_fqdn_ok then Except.ok none
          else
            match cfg.device_sas_token with
            | some deviceSasToken =>
              if ¬ env.string_new_ok then Except.ok none
              else if ¬ env.construct_credential_ok then Except.ok none
              else
                Except.ok (some
                  { junk with
                      device_id := device_id
                      iot_hub_host_fqdn := iot_hub_host_fqdn
                      credential :=
                        { type := CREDENTIAL_TYPE.DEVICE_SAS_TOKEN
                          deviceKey := none
                          deviceSasToken := some deviceSasToken }
                      cbs_state :=
                        { junk.cbs_state with
                            sasTokenKeyName := some ""
                            current_sas_token_create_time := 0 }
                      status := AUTHENTICATION_STATUS.NONE
                      on_status_changed_registered := false })
            | none =>
              match cfg.device_key with
              | some deviceKey =>
                if ¬ env.string_new_ok then Except.ok none
                else if ¬ env.construct_credential_ok then Except.ok none
                else
                  Except.ok (some
                    { junk with
                        device_id := device_id
                        iot_hub_host_fqdn := iot_hub_host_fqdn
                        credential :=
                          { type := CREDENTIAL_TYPE.DEVICE_KEY
                            deviceKey := some deviceKey
                            deviceSasToken := none }
                        cbs_state :=
                          { junk.cbs_state with
                              sasTokenKeyName := some ""
                              current_sas_token_create_time := 0 }
                        status := AUTHENTICATION_STATUS.NONE
                        on_status_changed_registered := false })
              | none => Except.ok none

/-- Embeds `authentication_do_work` (lines 482-540). The result is `none` on every
path that leaves the local `int result` unassigned (the source reads it back
uninitialised), including successful authentication dispatch and every
no-op tick. -/
def authentication_do_work (env : Env) (handle : Option AUTHENTICATION_STATE) :
    Option Int × Option AUTHENTICATION_STATE × List AuthEvent :=
  match handle with
  | none => (some 489, none, [])
  | some auth_state =>
    if auth_state.status = AUTHENTICATION_STATUS.NONE
        ∨ auth_state.status = AUTHENTICATION_STATUS.IDLE then
      (some 499, some auth_state, [])
    else
      let s0 :=
        if auth_state.status = AUTHENTICATION_STATUS.AUTHENTICATED
            ∧ auth_state.credential.type = CREDENTIAL_TYPE.DEVICE_KEY
            ∧ isSasTokenRefreshRequired env auth_state then
          update_status auth_state AUTHENTICATION_STATUS.REFRESHING
        else (auth_state, [])
      if s0.1.status = AUTHENTICATION_STATUS.STARTED
          ∨ s0.1.status = AUTHENTICATION_STATUS.REFRESHING then
        let ad := authenticate_device env s0.1
        if ad.1 ≠ 0 then
          (some 518, some ad.2.1, s0.2 ++ ad.2.2)
        else
          (none, some ad.2.1, s0.2 ++ ad.2.2)
      else if s0.1.status = AUTHENTICATION_STATUS.AUTHENTICATING then
        match verifyAuthenticationTimeout env s0.1 with
        | Except.error _ =>
          let sf := update_status s0.1 AUTHENTICATION_STATUS.FAILED
          (none, some sf.1, s0.2 ++ sf.2)
        | Except.ok timeout_reached =>
          if timeout_reached then
            let sf := update_status s0.1 AUTHENTICATION_STATUS.FAILED_TIMEOUT
            (none, some sf.1, s0.2 ++ sf.2)
          else
            (none, some s0.1, s0.2)
      else
        (none, some s0.1, s0.2)

/-- Embeds `authentication_start` (lines 563-593). `cbs_handle_is_null` is whether
the `cbs_handle` argument is NULL; `register_observer` is whether
`on_status_changed` is non-NULL. -/
def authentication_start (handle : Option AUTHENTICATION_STATE)
    (cbs_handle_is_null register_observer : Bool) :
    Int × Option AUTHENTICATION_STATE × List AuthEvent :=
  match handle with
  | none => (571, none, [])
  | some auth_state =>
    if (auth_state.credential.type = CREDENTIAL_TYPE.DEVICE_KEY
          ∨ auth_state.credential.type = CREDENTIAL_TYPE.DEVICE_SAS_TOKEN)
        ∧ cbs_handle_is_null then
      (580, some auth_state, [])
    else
      let s1 :=
        { auth_state with
            cbs_state :=
              { auth_state.cbs_state with cbs_handle_is_null := cbs_handle_is_null }
            on_status_changed_registered := register_observer }
      let su := update_status s1 AUTHENTICATION_STATUS.STARTED
      (0, some su.1, su.2)

/-- Embeds `authentication_stop` (lines 595-669). `register_stop_observer` is
whether the `on_stop_completed` argument is non-NULL. -/
def authentication_stop (env : Env) (handle : Option AUTHENTICATION_STATE)
    (register_stop_observer : Bool) :
    Int × Option AUTHENTICATION_STATE × List AuthEvent :=
  match handle with
  | none => (605, none, [])
  | some auth_state =>
    match auth_state.credential.type with
    | CREDENTIAL_TYPE.DEVICE_KEY | CREDENTIAL_TYPE.DEVICE_SAS_TOKEN =>
      if auth_state.status = AUTHENTICATION_STATUS.FAILED then
        let su := update_status auth_state AUTHENTICATION_STATUS.IDLE
        (0, some { su.1 with on_status_changed_registered := false }, su.2)
      else if auth_state.status ≠ AUTHENTICATION_STATUS.AUTHENTICATED
          ∧ auth_state.status ≠ AUTHENTICATION_STATUS.AUTHENTICATING then
        (629, some auth_state, [])
      else
        match create_devices_path env auth_state.iot_hub_host_fqdn
            auth_state.device_id with
        | none => (635, some auth_state, [])
        | some devices_path =>
          let s1 := { auth_state with on_stop_completed_registered := register_stop_observer }
          let su := update_status s1 AUTHENTICATION_STATUS.DEAUTHENTICATING
          if env.cbs_delete_ok then
            (0, some su.1,
             su.2 ++ [AuthEvent.cbsDeleteToken devices_path SAS_TOKEN_TYPE])
          else
            let s2 := { su.1 with on_stop_completed_registered := false }
            let sf := update_status s2 AUTHENTICATION_STATUS.FAILED
            (651, some sf.1,
             su.2 ++ [AuthEvent.cbsDeleteToken devices_path SAS_TOKEN_TYPE] ++ sf.2)
    | _ => (663, some auth_state, [])

/-- Embeds `authentication_set_option` (lines 671-688). The source checks the two
null arguments and otherwise assigns neither `result` nor any option field:
the success-path return value is indeterminate (`none`) and the state is
untouched. -/
def authentication_set_option (handle : Option AUTHENTICATION_STATE)
    (name : Option String) (_value : Nat) :
    Option Int × Option AUTHENTICATION_STATE :=
  match handle with
  | none => (some 678, none)
  | some auth_state =>
    match name with
    | none => (some 683, some auth_state)
    | some _ => (none, some auth_state)

/-- Embeds `on_put_token_complete` (lines 84-104). -/
def on_put_token_complete (operation_result_ok : Bool)
    (auth_state : AUTHENTICATION_STATE) :
    AUTHENTICATION_STATE × List AuthEvent :=
  if operation_result_ok then
    update_status auth_state AUTHENTICATION_STATUS.AUTHENTICATED
  else
    update_status auth_state AUTHENTICATION_STATUS.FAILED

/-- Embeds `on_delete_token_complete` (lines 106-139): stop observer first (then
cleared), status transition last. -/
def on_delete_token_complete (operation_result_ok : Bool)
    (auth_state : AUTHENTICATION_STATE) :
    AUTHENTICATION_STATE × List AuthEvent :=
  let s1 :=
    if operation_result_ok then
      { auth_state with cbs_state :=
         { auth_state.cbs_state with current_sas_token_create_time := 0 } }
    else auth_state
  let result :=
    if operation_result_ok then DELETE_SAS_TOKEN_RESULT.SUCCESS
    else DELETE_SAS_TOKEN_RESULT.ERROR
  let new_status :=
    if operation_result_ok then AUTHENTICATION_STATUS.IDLE
    else AUTHENTICATION_STATUS.FAILED
  let stop_events :=
    if s1.on_stop_completed_registered then [AuthEvent.stopCompleted result]
    else []
  let s2 :=
    if s1.on_stop_completed_registered then
      { s1 with on_stop_completed_registered := false }
    else s1
  let su := update_status s2 new_status
  (su.1, stop_events ++ su.2)

-- Concrete fixtures used by several claims.

def envOK : Env :=
  { clock := some 1000, malloc_ok := true, sprintf_ok := true
    string_construct_ok := true, sastoken_create_ok := true
    cbs_put_ok := true, cbs_delete_ok := true }

def envNoMalloc : Env := { envOK with malloc_ok := false }

def createEnvOK : CreateEnv :=
  { malloc_ok := true, construct_device_id_ok := true, construct_fqdn_ok := true
    string_new_ok := true, construct_credential_ok := true }

def baseCbs : AMQP_TRANSPORT_CBS_STATE :=
  { sas_token_lifetime := 3600000, sas_token_refresh_time := 2700000
    cbs_request_timeout := 30000, cbs_handle_is_null := false
    sasTokenKeyName := some "", current_sas_token_create_time := 0
    current_sas_token_put_time := 0 }

def keyCred : DEVICE_CREDENTIAL :=
  { type := CREDENTIAL_TYPE.DEVICE_KEY, deviceKey := some "KEY", deviceSasToken := none }

def sasCred : DEVICE_CREDENTIAL :=
  { type := CREDENTIAL_TYPE.DEVICE_SAS_TOKEN, deviceKey := none, deviceSasToken := some "SAS" }

def mkState (c : DEVICE_CREDENTIAL) (st : AUTHENTICATION_STATUS) : AUTHENTICATION_STATE :=
  { device_id := "dev1", iot_hub_host_fqdn := "hub.example.net", credential := c
    cbs_state := baseCbs, status := st
    on_status_changed_registered := true, on_stop_completed_registered := false }

/-- A concrete value for the uninitialised memory `malloc` hands to
`authentication_create`. -/
def junkZero : AUTHENTICATION_STATE :=
  { device_id := "", iot_hub_host_fqdn := ""
    credential := { type := CREDENTIAL_TYPE.NONE, deviceKey := none, deviceSasToken := none }
    cbs_state :=
      { sas_token_lifetime := 0, sas_token_refresh_time := 0, cbs_request_timeout := 0
        cbs_handle_is_null := true, sasTokenKeyName := none
        current_sas_token_create_time := 0, current_sas_token_put_time := 0 }
    status := AUTHENTICATION_STATUS.NONE
    on_status_changed_registered := false, on_stop_completed_registered := false }

def cfgSasOnly : AUTHENTICATION_CONFIG :=
  { device_id := some "dev1", iot_hub_host_fqdn := some "hub.example.net"
    device_key := none, device_sas_token := some "SAS" }

/-- Projects the handle out of a `authentication_create` outcome. -/
def created_state : Except Unit (Option AUTHENTICATION_STATE) → Option AUTHENTICATION_STATE
  | Except.ok (some s) => some s
  | _ => none

/-- The CBS-facing argument contract: a put or delete event carries token
type `SAS_TOKEN_TYPE` and audience `fqdn ++ "/devices/" ++ device_id`;
observer events carry no CBS arguments. -/
def cbs_args_ok (fqdn dev_id : String) : AuthEvent → Bool
  | AuthEvent.cbsPutToken token_type audience _ =>
      token_type == SAS_TOKEN_TYPE && audience == fqdn ++ "/devices/" ++ dev_id
  | AuthEvent.cbsDeleteToken audience token_type =>
      token_type == SAS_TOKEN_TYPE && audience == fqdn ++ "/devices/" ++ dev_id
  | _ => true

/-- Claim C4 (code bug): with a non-null handle and the recognised option
names, `authentication_set_option` neither updates any configuration field
nor assigns its result (the returned `int` is read back uninitialised,
modelled `none`): the state is returned untouched, contradicting the claim
that the millisecond value is stored and 0 returned. -/
theorem set_option_applies_nothing :
    authentication_set_option (some (mkState keyCred AUTHENTICATION_STATUS.NONE))
        (some "sas_token_lifetime") 5000
      = (none, some (mkState keyCred AUTHENTICATION_STATUS.NONE)) ∧
    authentication_set_option (some (mkState keyCred AUTHENTICATION_STATUS.NONE))
        (some "sas_token_refresh_time") 5000
      = (none, some (mkState keyCred AUTHENTICATION_STATUS.NONE)) ∧
    authentication_set_option (some (mkState keyCred AUTHENTICATION_STATUS.NONE))
        (some "cbs_request_timeout") 5000
      = (none, some (mkState keyCred AUTHENTICATION_STATUS.NONE)) ∧
    authentication_set_option (some (mkState keyCred AUTHENTICATION_STATUS.NONE))
        (some "unknown_name") 5000
      = (none, some (mkState keyCred AUTHENTICATION_STATUS.NONE)) := by
  decide

/-- Claim C6 (code bug): a tick on a started handle whose status is
`AUTHENTICATED` (refresh not due), `FAILED`, `FAILED_TIMEOUT` or
`DEAUTHENTICATING` performs no state transition and emits no event, but the
returned `int result` is left unassigned (modelled `none`), not the value 0
the claim states. -/
theorem do_work_noop_tick_result_unassigned :
    authentication_do_work envOK (some (mkState keyCred AUTHENTICATION_STATUS.AUTHENTICATED))
      = (none, some (mkState keyCred AUTHENTICATION_STATUS.AUTHENTICATED), []) ∧
    authentication_do_work envOK (some (mkState keyCred AUTHENTICATION_STATUS.FAILED))
      = (none, some (mkState keyCred AUTHENTICATION_STATUS.FAILED), []) ∧
    authentication_do_work envOK (some (mkState keyCred AUTHENTICATION_STATUS.FAILED_TIMEOUT))
      = (none, some (mkState keyCred AUTHENTICATION_STATUS.FAILED_TIMEOUT), []) ∧
    authentication_do_work envOK (some (mkState keyCred AUTHENTICATION_STATUS.DEAUTHENTICATING))
      = (none, some (mkState keyCred AUTHENTICATION_STATUS.DEAUTHENTICATING), []) := by
  decide

/-- Claim C10 (code bug): whenever the state record was never allocated
(null config, null `device_id`, null `iot_hub_host_fqdn`, or `malloc`
failure), the cleanup block still reads `auth_state->credential.data.deviceKey`
through the NULL pointer before its null check (`Except.error ()`), instead
of returning NULL without touching the absent record. -/
theorem create_null_cleanup_dereference :
    authentication_create createEnvOK junkZero none = Except.error () ∧
    authentication_create createEnvOK junkZero
        (some { device_id := none, iot_hub_host_fqdn := some "hub.example.net"
                device_key := some "KEY", device_sas_token := none })
      = Except.error () ∧
    authentication_create createEnvOK junkZero
        (some { device_id := some "dev1", iot_hub_host_fqdn := none
                device_key := some "KEY", device_sas_token := none })
      = Except.error () ∧
    authentication_create { createEnvOK with malloc_ok := false } junkZero
        (some { device_id := some "dev1", iot_hub_host_fqdn := some "hub.example.net"
                device_key := some "KEY", device_sas_token := none })
      = Except.error () := by
  exact ⟨rfl, rfl, rfl, rfl⟩

/-- Claim C2 counterexample: a handle with credential DeviceKey and status
`FAILED_TIMEOUT` is rejected by `authentication_stop` (error 629, state
untouched, no events) — the source's synchronous-idle branch tests only
`AUTHENTICATION_STATUS_FAILED` — whereas the claim requires the transition
to `IDLE` and an ok return. -/
theorem stop_failed_timeout_rejected :
    (authentication_stop envOK (some (mkState keyCred AUTHENTICATION_STATUS.FAILED_TIMEOUT)) true).1 ≠ 0 ∧
    (authentication_stop envOK (some (mkState keyCred AUTHENTICATION_STATUS.FAILED_TIMEOUT)) true).2.1
      = some (mkState keyCred AUTHENTICATION_STATUS.FAILED_TIMEOUT) ∧
    (authentication_stop envOK (some (mkState keyCred AUTHENTICATION_STATUS.FAILED_TIMEOUT)) true).2.2
      = [] := by
  decide

/-- Claim C5 counterexample: `authentication_create` never writes
`current_sas_token_put_time`; when the malloc'd memory happens to hold 7
there, the successfully created record reports 7, not the 0 the claim
states. -/
theorem create_put_time_not_initialised :
    (created_state (authentication_create createEnvOK
        { junkZero with cbs_state := { junkZero.cbs_state with current_sas_token_put_time := 7 } }
        (some cfgSasOnly))).map (fun s => s.cbs_state.current_sas_token_put_time)
      = some 7 ∧
    (created_state (authentication_create createEnvOK
        { junkZero with cbs_state := { junkZero.cbs_state with current_sas_token_put_time := 7 } }
        (some cfgSasOnly))).map (fun s => s.cbs_state.current_sas_token_put_time)
      ≠ some 0 := by
  decide

/-- Claim C7 counterexample: for a DeviceSasToken authenticator in status
`STARTED`, a failed audience construction (malloc failure inside
`create_devices_path`) returns an error but leaves the status `FAILED` — the
source moved to `AUTHENTICATING` before building the audience and moves to
`FAILED` on the failure — whereas the claim requires the pre-call status to
be preserved. -/
theorem authenticate_sas_construction_failure_changes_status :
    (mkState sasCred AUTHENTICATION_STATUS.STARTED).status = AUTHENTICATION_STATUS.STARTED ∧
    (authenticate_device envNoMalloc (mkState sasCred AUTHENTICATION_STATUS.STARTED)).1 ≠ 0 ∧
    (authenticate_device envNoMalloc (mkState sasCred AUTHENTICATION_STATUS.STARTED)).2.1.status
      = AUTHENTICATION_STATUS.FAILED := by
  decide

/-- Claim C9 counterexample: `authentication_start` performs no source-status
check; from `FAILED` (outside {None, Idle}) it still succeeds and moves the
status to `STARTED`, contradicting the claim. -/
theorem start_from_failed_reaches_started :
    (mkState keyCred AUTHENTICATION_STATUS.FAILED).status ≠ AUTHENTICATION_STATUS.NONE ∧
    (mkState keyCred AUTHENTICATION_STATUS.FAILED).status ≠ AUTHENTICATION_STATUS.IDLE ∧
    (authentication_start (some (mkState keyCred AUTHENTICATION_STATUS.FAILED)) false true).1 = 0 ∧
    (authentication_start (some (mkState keyCred AUTHENTICATION_STATUS.FAILED)) false true).2.1.map
        (fun s => s.status)
      = some AUTHENTICATION_STATUS.STARTED := by
  decide

-- Helper lemmas about the embedded functions.

theorem update_status_status (s : AUTHENTICATION_STATE) (ns : AUTHENTICATION_STATUS) :
    ((update_status s ns).1).status = ns := by
  unfold update_status
  split
  · rfl
  · rename_i h
    simpa using not_ne_iff.mp h

theorem update_status_fqdn (s : AUTHENTICATION_STATE) (ns : AUTHENTICATION_STATUS) :
    ((update_status s ns).1).iot_hub_host_fqdn = s.iot_hub_host_fqdn := by
  unfold update_status; split <;> rfl

theorem update_status_dev_id (s : AUTHENTICATION_STATE) (ns : AUTHENTICATION_STATUS) :
    ((update_status s ns).1).device_id = s.device_id := by
  unfold update_status; split <;> rfl

theorem update_status_credential (s : AUTHENTICATION_STATE) (ns : AUTHENTICATION_STATUS) :
    ((update_status s ns).1).credential = s.credential := by
  unfold update_status; split <;> rfl

theorem update_status_cbs_args (f d : String) (s : AUTHENTICATION_STATE)
    (ns : AUTHENTICATION_STATUS) :
    ((update_status s ns).2).all (cbs_args_ok f d) = true := by
  unfold update_status
  split_ifs <;> simp [cbs_args_ok]

theorem create_devices_path_some (env : Env) (a b p : String)
    (h : create_devices_path env a b = some p) : p = a ++ "/devices/" ++ b := by
  unfold create_devices_path at h
  split_ifs at h
  simp_all

theorem handSAS_cbs_args (env : Env) (f d tok : String) (st : AUTHENTICATION_STATE)
    (t : Nat) :
    ((handSASTokenToCbs env st (f ++ "/devices/" ++ d) tok t).2.2).all
      (cbs_args_ok f d) = true := by
  unfold handSASTokenToCbs
  split_ifs <;> simp [cbs_args_ok]

/-- Claim C8: `update_status` — the single choke point every status change
passes through — invokes the registered status-change observer exactly once
with the old and the new status whenever the status actually changes, and
does not invoke it (and leaves the state untouched) when the new status
equals the current one. -/
theorem update_status_observer_contract (s : AUTHENTICATION_STATE)
    (ns : AUTHENTICATION_STATUS) :
    (s.status ≠ ns →
      (update_status s ns).1 = { s with status := ns } ∧
      (update_status s ns).2 =
        (if s.on_status_changed_registered then
          [AuthEvent.statusChanged s.status ns]
        else [])) ∧
    (s.status = ns → update_status s ns = (s, [])) := by
  unfold update_status
  constructor
  · intro h
    rw [if_pos h]
    exact ⟨rfl, rfl⟩
  · intro h
    rw [if_neg (by simp [h])]

theorem update_status_observer_contract_witness :
    (update_status (mkState keyCred AUTHENTICATION_STATUS.NONE)
        AUTHENTICATION_STATUS.STARTED).2
      = [AuthEvent.statusChanged AUTHENTICATION_STATUS.NONE AUTHENTICATION_STATUS.STARTED] ∧
    update_status (mkState keyCred AUTHENTICATION_STATUS.STARTED)
        AUTHENTICATION_STATUS.STARTED
      = (mkState keyCred AUTHENTICATION_STATUS.STARTED, []) := by
  constructor
  · have h := (update_status_observer_contract (mkState keyCred AUTHENTICATION_STATUS.NONE)
      AUTHENTICATION_STATUS.STARTED).1 (by decide)
    rw [h.2]
    rfl
  · exact (update_status_observer_contract (mkState keyCred AUTHENTICATION_STATUS.STARTED)
      AUTHENTICATION_STATUS.STARTED).2 rfl

/-- Claim C9 amended: `authentication_start` checks no source status at
all — for every non-null handle (with a non-null CBS handle when the
credential is DeviceKey/DeviceSasToken) it succeeds and moves the status to
`STARTED`, whatever the previous status was. -/
theorem start_unrestricted_transition (s : AUTHENTICATION_STATE) (cbn reg : Bool)
    (h : ¬ ((s.credential.type = CREDENTIAL_TYPE.DEVICE_KEY
             ∨ s.credential.type = CREDENTIAL_TYPE.DEVICE_SAS_TOKEN) ∧ cbn = true)) :
    (authentication_start (some s) cbn reg).1 = 0 ∧
    (authentication_start (some s) cbn reg).2.1.map (fun x => x.status)
      = some AUTHENTICATION_STATUS.STARTED := by
  simp only [authentication_start]
  rw [if_neg h]
  exact ⟨rfl, by simp [update_status_status]⟩

theorem start_unrestricted_transition_witness :
    (authentication_start (some (mkState keyCred AUTHENTICATION_STATUS.AUTHENTICATED))
        false true).1 = 0 ∧
    (authentication_start (some (mkState keyCred AUTHENTICATION_STATUS.AUTHENTICATED))
        false true).2.1.map (fun x => x.status)
      = some AUTHENTICATION_STATUS.STARTED :=
  start_unrestricted_transition (mkState keyCred AUTHENTICATION_STATUS.AUTHENTICATED)
    false true (by decide)

/-- Claim C2 amended: for a non-null handle with a CBS credential,
`authentication_stop` synchronously moves status `FAILED` to `IDLE`, clears
the status observer (after notifying it of the change) and never invokes
`on_stop_completed`, returning ok; it fails with no state change and no
events for every status outside {Authenticated, Authenticating, Failed} —
in particular for `FAILED_TIMEOUT`, `None`, `Idle`, `Started`, `Refreshing`
and `Deauthenticating` — as well as when the handle is null or the
credential is X.509 (or still None). -/
theorem authentication_stop_spec (env : Env) (s : AUTHENTICATION_STATE) (b : Bool) :
    ((s.credential.type = CREDENTIAL_TYPE.DEVICE_KEY
        ∨ s.credential.type = CREDENTIAL_TYPE.DEVICE_SAS_TOKEN) →
      (s.status = AUTHENTICATION_STATUS.FAILED →
        authentication_stop env (some s) b
          = (0,
             some { s with status := AUTHENTICATION_STATUS.IDLE
                           on_status_changed_registered := false },
             if s.on_status_changed_registered then
               [AuthEvent.statusChanged AUTHENTICATION_STATUS.FAILED AUTHENTICATION_STATUS.IDLE]
             else [])) ∧
      (s.status = AUTHENTICATION_STATUS.FAILED_TIMEOUT →
        (authentication_stop env (some s) b).1 ≠ 0 ∧
        (authentication_stop env (some s) b).2.1 = some s ∧
        (authentication_stop env (some s) b).2.2 = []) ∧
      (s.status ≠ AUTHENTICATION_STATUS.AUTHENTICATED →
        s.status ≠ AUTHENTICATION_STATUS.AUTHENTICATING →
        s.status ≠ AUTHENTICATION_STATUS.FAILED →
        (authentication_stop env (some s) b).1 ≠ 0 ∧
        (authentication_stop env (some s) b).2.1 = some s ∧
        (authentication_stop env (some s) b).2.2 = [])) ∧
    ((s.credential.type = CREDENTIAL_TYPE.NONE
        ∨ s.credential.type = CREDENTIAL_TYPE.X509) →
      (authentication_stop env (some s) b).1 ≠ 0 ∧
      (authentication_stop env (some s) b).2.1 = some s ∧
      (authentication_stop env (some s) b).2.2 = []) ∧
    (authentication_stop env none b).1 ≠ 0 := by
  refine ⟨?_, ?_, ?_⟩
  · intro hc
    refine ⟨?_, ?_, ?_⟩
    · intro hf
      rcases hc with h | h <;>
        simp [authentication_stop, h, hf, update_status]
    · intro hf
      rcases hc with h | h <;>
        simp [authentication_stop, h, hf]
    · intro h1 h2 h3
      rcases hc with h | h <;>
        simp [authentication_stop, h, h1, h2, h3]
  · intro hc
    rcases hc with h | h <;> simp [authentication_stop, h]
  · simp [authentication_stop]

theorem authentication_stop_spec_witness :
    authentication_stop envOK (some (mkState keyCred AUTHENTICATION_STATUS.FAILED)) false
      = (0,
         some { mkState keyCred AUTHENTICATION_STATUS.FAILED with
                  status := AUTHENTICATION_STATUS.IDLE
                  on_status_changed_registered := false },
         [AuthEvent.statusChanged AUTHENTICATION_STATUS.FAILED AUTHENTICATION_STATUS.IDLE]) := by
  have h := ((authentication_stop_spec envOK (mkState keyCred AUTHENTICATION_STATUS.FAILED)
      false).1 (Or.inl rfl)).1 rfl
  rw [h]
  rfl

/-- Claim C5 amended: every record a successful `authentication_create`
returns has status `None`, a non-null empty `sasTokenKeyName`, and
`current_sas_token_create_time = 0`; but `current_sas_token_put_time` is
never written — it keeps whatever the uninitialised allocation held — so it
is 0 only by accident. -/
theorem create_success_initial_fields (env : CreateEnv) (junk : AUTHENTICATION_STATE)
    (config : Option AUTHENTICATION_CONFIG) (s : AUTHENTICATION_STATE)
    (h : authentication_create env junk config = Except.ok (some s)) :
    s.status = AUTHENTICATION_STATUS.NONE ∧
    s.cbs_state.sasTokenKeyName = some "" ∧
    s.cbs_state.current_sas_token_create_time = 0 ∧
    s.cbs_state.current_sas_token_put_time
      = junk.cbs_state.current_sas_token_put_time := by
  unfold authentication_create at h
  repeat' split at h
  all_goals simp_all
  all_goals subst h
  all_goals simp

theorem create_success_initial_fields_witness :
    ∃ s, authentication_create createEnvOK junkZero (some cfgSasOnly) = Except.ok (some s) ∧
      (s.status = AUTHENTICATION_STATUS.NONE ∧
       s.cbs_state.sasTokenKeyName = some "" ∧
       s.cbs_state.current_sas_token_create_time = 0 ∧
       s.cbs_state.current_sas_token_put_time
         = junkZero.cbs_state.current_sas_token_put_time) :=
  ⟨_, rfl, create_success_initial_fields createEnvOK junkZero (some cfgSasOnly) _ rfl⟩

/-- Claim C7 amended: in `authenticate_device`, clock-read failure leaves
the status unchanged for both CBS credential types, and for DeviceKey every
construction failure (audience or SAS token) also leaves the status
unchanged with an error return; but for DeviceSasToken the function enters
`AUTHENTICATING` before building the audience, so an audience-construction
failure ends in status `FAILED` — not the pre-call status. A synchronous
CBS dispatch failure ends in `FAILED` for both credential types. -/
theorem authenticate_device_failure_spec (env : Env) (s : AUTHENTICATION_STATE) :
    (s.credential.type = CREDENTIAL_TYPE.DEVICE_KEY →
      (env.clock = none → authenticate_device env s = (249, s, [])) ∧
      (∀ now, env.clock = some now →
        create_devices_path env s.iot_hub_host_fqdn s.device_id = none →
        authenticate_device env s = (264, s, [])) ∧
      (∀ now, env.clock = some now →
        env.malloc_ok = true → env.sprintf_ok = true → env.string_construct_ok = true →
        env.sastoken_create_ok = false →
        authenticate_device env s = (271, s, [])) ∧
      (∀ now, env.clock = some now →
        env.malloc_ok = true → env.sprintf_ok = true → env.string_construct_ok = true →
        env.sastoken_create_ok = true → env.cbs_put_ok = false →
        (authenticate_device env s).1 ≠ 0 ∧
        (authenticate_device env s).2.1.status = AUTHENTICATION_STATUS.FAILED)) ∧
    (s.credential.type = CREDENTIAL_TYPE.DEVICE_SAS_TOKEN →
      (env.clock = none → authenticate_device env s = (311, s, [])) ∧
      (∀ now, env.clock = some now →
        env.malloc_ok = false →
        (authenticate_device env s).1 ≠ 0 ∧
        (authenticate_device env s).2.1.status = AUTHENTICATION_STATUS.FAILED) ∧
      (∀ now, env.clock = some now →
        env.malloc_ok = true → env.sprintf_ok = true → env.string_construct_ok = true →
        env.cbs_put_ok = false →
        (authenticate_device env s).1 ≠ 0 ∧
        (authenticate_device env s).2.1.status = AUTHENTICATION_STATUS.FAILED)) := by
  constructor
  · intro hk
    refine ⟨?_, ?_, ?_, ?_⟩
    · intro hclk
      simp [authenticate_device, hk, getSecondsSinceEpoch, hclk]
    · intro now hclk hcd
      simp [authenticate_device, hk, getSecondsSinceEpoch, hclk, hcd]
    · intro now hclk hm hsp hsc hsa
      simp [authenticate_device, hk, getSecondsSinceEpoch, hclk, create_devices_path,
        SASToken_Create, hm, hsp, hsc, hsa]
    · intro now hclk hm hsp hsc hsa hcp
      simp [authenticate_device, hk, getSecondsSinceEpoch, hclk, create_devices_path,
        SASToken_Create, handSASTokenToCbs, hm, hsp, hsc, hsa, hcp,
        update_status_status]
  · intro hk
    refine ⟨?_, ?_, ?_⟩
    · intro hclk
      simp [authenticate_device, hk, getSecondsSinceEpoch, hclk]
    · intro now hclk hm
      simp [authenticate_device, hk, getSecondsSinceEpoch, hclk, create_devices_path,
        hm, update_status_status]
    · intro now hclk hm hsp hsc hcp
      simp [authenticate_device, hk, getSecondsSinceEpoch, hclk, create_devices_path,
        handSASTokenToCbs, hm, hsp, hsc, hcp, update_status_status]

theorem authenticate_device_failure_spec_witness :
    authenticate_device { envOK with sastoken_create_ok := false }
        (mkState keyCred AUTHENTICATION_STATUS.STARTED)
      = (271, mkState keyCred AUTHENTICATION_STATUS.STARTED, []) :=
  ((authenticate_device_failure_spec { envOK with sastoken_create_ok := false }
      (mkState keyCred AUTHENTICATION_STATUS.STARTED)).1 rfl).2.2.1 1000 rfl rfl rfl rfl rfl

/-- Claim C1: for every authenticator with non-empty `device_id` and
`host_fqdn`, every CBS operation the module performs — `cbs_put_token`
issued by `authenticate_device` and `cbs_delete_token` issued by
`authentication_stop` — is passed audience
`host_fqdn ++ "/devices/" ++ device_id` and token type
`servicebus.windows.net:sastoken`. -/
theorem cbs_operations_audience_and_token_type (env : Env) (s : AUTHENTICATION_STATE)
    (b : Bool) (hd : s.device_id ≠ "") (hf : s.iot_hub_host_fqdn ≠ "") :
    ((authenticate_device env s).2.2).all
        (cbs_args_ok s.iot_hub_host_fqdn s.device_id) = true ∧
    ((authentication_stop env (some s) b).2.2).all
        (cbs_args_ok s.iot_hub_host_fqdn s.device_id) = true := by
  constructor
  · cases hct : s.credential.type <;> simp only [authenticate_device, hct]
    · simp
    · -- DEVICE_KEY
      cases hclk : env.clock <;> simp only [getSecondsSinceEpoch, hclk]
      · simp
      · cases hcd : create_devices_path env s.iot_hub_host_fqdn s.device_id <;>
          simp only [hcd]
        · simp
        · rename_i now p
          have hp := create_devices_path_some env _ _ p hcd
          subst hp
          cases hsa : env.sastoken_create_ok <;>
            simp only [SASToken_Create, hsa, Bool.false_eq_true, if_false, if_true]
          · simp
          · cases hcp : env.cbs_put_ok <;>
              simp only [handSASTokenToCbs, hcp, Bool.false_eq_true, if_false, if_true]
            · simp only [ne_eq, List.all_append]
              refine Eq.trans ?_ rfl
              simp [update_status_cbs_args, cbs_args_ok]
            · simp only [ne_eq, List.all_append]
              refine Eq.trans ?_ rfl
              simp [update_status_cbs_args, cbs_args_ok]
    · -- DEVICE_SAS_TOKEN
      cases hclk : env.clock <;> simp only [getSecondsSinceEpoch, hclk]
      · simp
      · rename_i now
        rw [update_status_fqdn, update_status_dev_id]
        cases hcd : create_devices_path env s.iot_hub_host_fqdn s.device_id <;>
          simp only [hcd]
        · simp [update_status_cbs_args, List.all_append]
        · rename_i p
          have hp := create_devices_path_some env _ _ p hcd
          subst hp
          cases hcp : env.cbs_put_ok <;>
            simp only [handSASTokenToCbs, hcp, Bool.false_eq_true, if_false, if_true]
          · simp only [ne_eq, List.all_append]
            refine Eq.trans ?_ rfl
            simp [update_status_cbs_args, cbs_args_ok]
          · simp only [ne_eq, List.all_append]
            refine Eq.trans ?_ rfl
            simp [update_status_cbs_args, cbs_args_ok]
    · simp
  · cases hct : s.credential.type <;> simp only [authentication_stop, hct]
    · simp
    · -- DEVICE_KEY
      by_cases hst : s.status = AUTHENTICATION_STATUS.FAILED <;>
        simp only [hst, if_true, if_false]
      · simp [update_status_cbs_args]
      · by_cases hst2 : s.status ≠ AUTHENTICATION_STATUS.AUTHENTICATED
            ∧ s.status ≠ AUTHENTICATION_STATUS.AUTHENTICATING
        · rw [if_pos hst2]
          simp
        · rw [if_neg hst2]
          cases hcd : create_devices_path env s.iot_hub_host_fqdn s.device_id <;>
            simp only [hcd]
          · simp
          · rename_i p
            have hp := create_devices_path_some env _ _ p hcd
            subst hp
            cases hdel : env.cbs_delete_ok <;>
              simp only [hdel, Bool.false_eq_true, if_false, if_true] <;>
              simp [update_status_cbs_args, List.all_append, cbs_args_ok]
    · -- DEVICE_SAS_TOKEN
      by_cases hst : s.status = AUTHENTICATION_STATUS.FAILED <;>
        simp only [hst, if_true, if_false]
      · simp [update_status_cbs_args]
      · by_cases hst2 : s.status ≠ AUTHENTICATION_STATUS.AUTHENTICATED
            ∧ s.status ≠ AUTHENTICATION_STATUS.AUTHENTICATING
        · rw [if_pos hst2]
          simp
        · rw [if_neg hst2]
          cases hcd : create_devices_path env s.iot_hub_host_fqdn s.device_id <;>
            simp only [hcd]
          · simp
          · rename_i p
            have hp := create_devices_path_some env _ _ p hcd
            subst hp
            cases hdel : env.cbs_delete_ok <;>
              simp only [hdel, Bool.false_eq_true, if_false, if_true] <;>
              simp [update_status_cbs_args, List.all_append, cbs_args_ok]
    · simp

theorem cbs_operations_audience_and_token_type_witness :
    ((authenticate_device envOK (mkState keyCred AUTHENTICATION_STATUS.STARTED)).2.2).all
        (cbs_args_ok "hub.example.net" "dev1") = true ∧
    ((authentication_stop envOK
        (some (mkState keyCred AUTHENTICATION_STATUS.AUTHENTICATED)) true).2.2).all
        (cbs_args_ok "hub.example.net" "dev1") = true :=
  ⟨(cbs_operations_audience_and_token_type envOK
      (mkState keyCred AUTHENTICATION_STATUS.STARTED) true (by decide) (by decide)).1,
   (cbs_operations_audience_and_token_type envOK
      (mkState keyCred AUTHENTICATION_STATUS.AUTHENTICATED) true (by decide) (by decide)).2⟩
